import Mathlib

/-!
Verification of the SFT dataset-generator app
(`src/distilabel_dataset_generator/apps/sft.py`).

The Python module is a thin orchestration layer:
  * `generate_dataset` estimates a duration from `num_rows` via a step
    function, spawns a worker process, polls it at a fixed cadence while
    emitting progress fractions, joins it, then projects the resulting
    table onto either `[prompt, completion]` or `[messages]`;
  * `generate_system_prompt` / `generate_sample_dataset` short-circuit on
    preset inputs and otherwise delegate to a model call / to
    `generate_dataset`;
  * `push_to_hub` validates the repository naming via `_check_push_to_hub`
    and uploads the table.

Each Python function is embedded below as an executable Lean definition,
with external effects (the model call, the pipeline runner, the remote hub
call, the worker's liveness and the exceptions raised inside the polling
loop) made explicit parameters.
-/

namespace SftApp

/-! ### Duration step function (`generate_dataset`, lines 95-108)

```
if num_rows < 5:      duration = 25
elif num_rows < 10:   duration = 60
elif num_rows < 30:   duration = 120
elif num_rows < 100:  duration = 240
elif num_rows < 300:  duration = 600
elif num_rows < 1000: duration = 1200
else:                 duration = 2400
```
`num_rows` is a Python integer, embedded as `ℤ`. -/

def durationFor (num_rows : ℤ) : ℤ :=
  if num_rows < 5 then 25
  else if num_rows < 10 then 60
  else if num_rows < 30 then 120
  else if num_rows < 100 then 240
  else if num_rows < 300 then 600
  else if num_rows < 1000 then 1200
  else 2400

/-! ### DataFrame model and output-column projection
(`generate_dataset`, lines 134-139)

A pandas frame is embedded as its column names plus rows of cells; the
pandas projection `df[[c1, ..., cn]]` yields a frame whose columns are
exactly `[c1, ..., cn]`, each row keeping the cells at those columns. -/

structure DataFrame where
  columns : List String
  rows : List (List String)
deriving DecidableEq, Repr

def DataFrame.select (df : DataFrame) (cols : List String) : DataFrame :=
  ⟨cols, df.rows.map fun row => cols.map fun c => row.getD (df.columns.indexOf c) ""⟩

/-- `generate_dataset`, lines 135-138: `num_turns == 1` keeps columns
`prompt, completion`, otherwise the single column `messages`. -/
def selectOutputColumns (num_turns : ℤ) (df : DataFrame) : DataFrame :=
  if num_turns = 1 then df.select ["prompt", "completion"]
  else df.select ["messages"]

/-- A concrete frame used by closed witness statements. -/
def dfEx : DataFrame :=
  ⟨["prompt", "completion"], [["What is 2+2?", "4"]]⟩

/-! ### Hub publishing
(`_check_push_to_hub`, lines 74-85; `push_to_hub`, lines 145-164)

`org_name` and `repo_name` are Python values that are either `None` or a
string, embedded as `Option String`. Python truthiness of a string is
non-emptiness. The remote call `distiset.push_to_hub(...)` is an external
effect, embedded as a parameter; the outcome records every remote request
issued so that "the hub was never contacted" is expressible. -/

def pyTruthy : Option String → Bool
  | none => false
  | some s => s != ""

def errRepoNaming : String :=
  "Please provide a `repo_name` and `org_name` to push the dataset to."

/-- `_check_push_to_hub(org_name, repo_name)`:

```
repo_id = f"{org_name}/{repo_name}"
    if repo_name is not None and org_name is not None else None
if repo_id is not None:
    if not all([repo_id, org_name, repo_name]):
        raise gr.Error("Please provide a `repo_name` and `org_name` ...")
return repo_id
```
-/
def check_push_to_hub (org_name repo_name : Option String) :
    Except String (Option String) :=
  let repo_id : Option String :=
    match repo_name, org_name with
    | some r, some o => some (o ++ "/" ++ r)
    | _, _ => none
  match repo_id with
  | none => .ok none
  | some rid =>
    if !(rid != "" && pyTruthy org_name && pyTruthy repo_name) then
      .error errRepoNaming
    else
      .ok (some rid)

/-- One call to `distiset.push_to_hub(repo_id=..., private=...,
include_script=True, token=...)`; `priv` embeds the Python `private`
flag, and the dataframe stands for the `Distiset` built from it. -/
structure PushRequest where
  repo_id : Option String
  priv : Bool
  dataframe : DataFrame
  include_script : Bool
deriving DecidableEq, Repr

/-- What a call to `push_to_hub` did: the remote requests it issued and
its result (the returned dataframe, or the message of the raised error). -/
structure PushOutcome where
  requests : List PushRequest
  result : Except String DataFrame

/-- `push_to_hub(dataframe, private, org_name, repo_name, oauth_token)`:
validates via `_check_push_to_hub`, then issues the remote push and
returns the input dataframe. `remote` supplies the outcome of the
external hub call. -/
def push_to_hub (remote : PushRequest → Except String Unit)
    (dataframe : DataFrame) (priv : Bool)
    (org_name repo_name : Option String) : PushOutcome :=
  match check_push_to_hub org_name repo_name with
  | .error e => ⟨[], .error e⟩
  | .ok repo_id =>
    let req : PushRequest := ⟨repo_id, priv, dataframe, true⟩
    match remote req with
    | .error e => ⟨[req], .error e⟩
    | .ok _ => ⟨[req], .ok dataframe⟩

/-- A remote hub that accepts every request. -/
def remoteOk : PushRequest → Except String Unit := fun _ => .ok ()

/-! ### Presets and the short-circuiting generators
(`generate_system_prompt`, lines 35-57; `generate_sample_dataset`,
lines 60-71)

The constants `DEFAULT_DATASET_DESCRIPTIONS`, `DEFAULT_SYSTEM_PROMPTS` and
`DEFAULT_DATASETS` are imported from
`src/distilabel_dataset_generator/pipelines/sft.py`, a file that is not
part of the available sources; they are modelled from the spec below. The
two generator functions themselves are embedded from the app source, with
the LLM call and the generation-job runner as explicit parameters; each
returns its value paired with a flag recording whether the external call
(model / runner) was invoked. -/

/-- Modelled from the spec: a preset, per the glossary, is "a fixed,
bundled example (description, system prompt, sample dataset) triple used
to skip model calls for demo inputs". -/
structure Preset where
  description : String
  system_prompt : String
  sample : DataFrame
deriving DecidableEq, Repr

/-- Modelled from the spec: `DEFAULT_DATASET_DESCRIPTIONS` from
`pipelines/sft.py`, the description components of the preset triples. -/
def DEFAULT_DATASET_DESCRIPTIONS (ps : List Preset) : List String :=
  ps.map Preset.description

/-- Modelled from the spec: `DEFAULT_SYSTEM_PROMPTS` from
`pipelines/sft.py`, the system-prompt components of the preset triples. -/
def DEFAULT_SYSTEM_PROMPTS (ps : List Preset) : List String :=
  ps.map Preset.system_prompt

/-- Modelled from the spec: `DEFAULT_DATASETS` from `pipelines/sft.py`,
the sample-dataset components of the preset triples. -/
def DEFAULT_DATASETS (ps : List Preset) : List DataFrame :=
  ps.map Preset.sample

/-- The arguments `generate_dataset` is invoked with (spec:
`GenerationRequest`). -/
structure GenerationRequest where
  system_prompt : String
  num_turns : ℤ
  num_rows : ℤ
  is_sample : Bool
deriving DecidableEq, Repr

/-- `generate_system_prompt(dataset_description)`, lines 35-57: preset
short-circuit, otherwise a single-shot model call. The boolean records
whether the model was invoked. -/
def generate_system_prompt (ps : List Preset) (model : String → String)
    (dataset_description : String) : String × Bool :=
  if dataset_description ∈ DEFAULT_DATASET_DESCRIPTIONS ps then
    let index := (DEFAULT_DATASET_DESCRIPTIONS ps).indexOf dataset_description
    if h : index < (DEFAULT_SYSTEM_PROMPTS ps).length then
      ((DEFAULT_SYSTEM_PROMPTS ps).get ⟨index, h⟩, false)
    else
      (model dataset_description, true)
  else
    (model dataset_description, true)

/-- `generate_sample_dataset(system_prompt)`, lines 60-71: preset
short-circuit, otherwise
`generate_dataset(system_prompt, num_turns=1, num_rows=1, is_sample=True)`.
The boolean records whether the runner was invoked. -/
def generate_sample_dataset (ps : List Preset)
    (runner : GenerationRequest → DataFrame) (system_prompt : String) :
    DataFrame × Bool :=
  if system_prompt ∈ DEFAULT_SYSTEM_PROMPTS ps then
    let index := (DEFAULT_SYSTEM_PROMPTS ps).indexOf system_prompt
    if h : index < (DEFAULT_DATASETS ps).length then
      ((DEFAULT_DATASETS ps).get ⟨index, h⟩, false)
    else
      (runner ⟨system_prompt, 1, 1, true⟩, true)
  else
    (runner ⟨system_prompt, 1, 1, true⟩, true)

/-- A second concrete frame for witness statements. -/
def dfEx2 : DataFrame :=
  ⟨["prompt", "completion"], [["Name a color.", "Blue"]]⟩

/-- A concrete preset list for witness statements. -/
def presetsEx : List Preset :=
  [⟨"A helpful math tutor", "You are a helpful math tutor.", dfEx⟩,
    ⟨"A color naming assistant", "You name colors.", dfEx2⟩]

/-- A concrete model call for witness statements. -/
def modelEx : String → String := fun d => "Generated prompt for: " ++ d

/-- A concrete runner for witness statements. -/
def runnerEx : GenerationRequest → DataFrame := fun _ => dfEx

/-! ### The polling loop of `generate_dataset` (lines 110-142)

```
try:
    p.start()
    total_steps = 100
    for step in range(total_steps):
        if not p.is_alive() or p._popen.poll() is not None:
            break
        progress((step + 1) / total_steps, desc=...)
        time.sleep(duration / total_steps)
    p.join()
except Exception as e:
    raise gr.Error(f"An error occurred during dataset generation: {str(e)}")
distiset = result_queue.get()
...
progress(1.0, desc="Dataset generation completed")
```

The worker's observable liveness and the exceptions raised by the loop
body (the `progress` callback or `time.sleep` can raise) form the run's
environment. Progress fractions are embedded as rationals. A run records
the fractions emitted inside the loop, whether `p.join()` was executed,
and the message of the raised `gr.Error`, if any. -/

/-- Environment of one run: `exitObserved step` is the value of
`not p.is_alive() or p._popen.poll() is not None` at poll `step`;
`raisesAt step` is the exception (message) the loop body raises at that
step, if any. -/
structure LoopEnv where
  exitObserved : ℕ → Bool
  raisesAt : ℕ → Option String

/-- Observable outcome of the `try` block. -/
structure RunState where
  emitted : List ℚ
  joined : Bool
  error : Option String

def totalSteps : ℕ := 100

/-- The fraction `(step + 1) / total_steps` passed to `progress`. -/
def emitFrac (step : ℕ) : ℚ := (step + 1) / totalSteps

/-- The wrapping applied by the `except` clause. -/
def errWrap (msg : String) : String :=
  "An error occurred during dataset generation: " ++ msg

/-- The `for step in range(total_steps)` loop followed by `p.join()`:
at each step the loop first checks the exit condition (breaking to
`p.join()`), then runs the body, which either raises (caught by the
`except` clause, which re-raises the wrapped error without joining) or
emits the fraction and continues. -/
def pollLoop (env : LoopEnv) : ℕ → ℕ → RunState
  | _, 0 => ⟨[], true, none⟩
  | step, fuel + 1 =>
    if env.exitObserved step then ⟨[], true, none⟩
    else
      match env.raisesAt step with
      | some msg => ⟨[], false, some (errWrap msg)⟩
      | none =>
        let rest := pollLoop env (step + 1) fuel
        ⟨emitFrac step :: rest.emitted, rest.joined, rest.error⟩

/-- One run of the `try` block of `generate_dataset`. -/
def generateDatasetRun (env : LoopEnv) : RunState :=
  pollLoop env 0 totalSteps

/-- All fractions handed to `progress` during a run: the loop emissions
followed, when no exception was raised, by the final `progress(1.0)` of
line 141. -/
def progressEvents (env : LoopEnv) : List ℚ :=
  (generateDatasetRun env).emitted ++
    (match (generateDatasetRun env).error with
      | none => [1]
      | some _ => [])

/-- A worker that stays alive through all 100 polls, with no exception. -/
def envAliveAll : LoopEnv := ⟨fun _ => false, fun _ => none⟩

/-- A worker observed exited from poll 2 on, with no exception. -/
def envExit2 : LoopEnv := ⟨fun i => decide (2 ≤ i), fun _ => none⟩

/-- A run whose loop body raises `"boom"` at the first poll. -/
def envRaise0 : LoopEnv :=
  ⟨fun _ => false, fun i => if i = 0 then some "boom" else none⟩

end SftApp

open SftApp

/-- C7: the estimated-duration step function of `generate_dataset` is
monotonically non-decreasing: `a ≤ b → durationFor a ≤ durationFor b`. -/
theorem durationFor_monotone (a b : ℤ) (h : a ≤ b) :
    durationFor a ≤ durationFor b := by
  unfold durationFor
  split_ifs <;> omega

/-- Witness for C7 at the concrete pair `(3, 700)`. -/
theorem durationFor_monotone_witness :
    (3 : ℤ) ≤ 700 ∧ durationFor 3 ≤ durationFor 700 :=
  ⟨by decide, durationFor_monotone 3 700 (by decide)⟩

/-- C10: for `num_rows` in the UI-enforced range `[1, 500]` the selected
duration is one of `{25, 60, 120, 240, 600, 1200}`, and the final `else`
branch assigning `2400` is unreachable. -/
theorem durationFor_ui_range (n : ℤ) (h1 : 1 ≤ n) (h2 : n ≤ 500) :
    durationFor n ∈ ([25, 60, 120, 240, 600, 1200] : List ℤ) ∧
      durationFor n ≠ 2400 := by
  unfold durationFor
  split_ifs <;> first | decide | (exfalso; omega)

/-- Witness for C10 at `num_rows = 450`. -/
theorem durationFor_ui_range_witness :
    ((1 : ℤ) ≤ 450 ∧ (450 : ℤ) ≤ 500) ∧
      (durationFor 450 ∈ ([25, 60, 120, 240, 600, 1200] : List ℤ) ∧
        durationFor 450 ≠ 2400) :=
  ⟨⟨by decide, by decide⟩, durationFor_ui_range 450 (by decide) (by decide)⟩

/-- C4: a completed generation with `num_turns = 1` yields a table with
exactly the columns `prompt, completion`; `num_turns > 1` yields exactly
the column `messages`. -/
theorem selectOutputColumns_columns (n : ℤ) (df : DataFrame) :
    (n = 1 → (selectOutputColumns n df).columns = ["prompt", "completion"]) ∧
      (1 < n → (selectOutputColumns n df).columns = ["messages"]) := by
  constructor
  · intro h
    simp [selectOutputColumns, h, DataFrame.select]
  · intro h
    have hne : n ≠ 1 := by omega
    simp [selectOutputColumns, hne, DataFrame.select]

/-- Witness for C4 at `num_turns = 1` and `num_turns = 2` on a concrete
frame. -/
theorem selectOutputColumns_columns_witness :
    ((1 : ℤ) = 1 ∧ (selectOutputColumns 1 dfEx).columns = ["prompt", "completion"]) ∧
      ((1 : ℤ) < 2 ∧ (selectOutputColumns 2 dfEx).columns = ["messages"]) :=
  ⟨⟨rfl, (selectOutputColumns_columns 1 dfEx).1 rfl⟩,
    ⟨by decide, (selectOutputColumns_columns 2 dfEx).2 (by decide)⟩⟩

/-- C1 (code bug): a call to `push_to_hub` with `org_name = None` (absent)
and `repo_name = "my-distiset"` raises no validation error — the guard
`if repo_id is not None` in `_check_push_to_hub` skips the check exactly
when a name is `None` — and the remote push is issued with
`repo_id = None`, so the hub is contacted despite the missing name. -/
theorem push_to_hub_missing_org_contacts_hub :
    (push_to_hub remoteOk dfEx true none (some "my-distiset")).requests =
        [⟨none, true, dfEx, true⟩] ∧
      (push_to_hub remoteOk dfEx true none (some "my-distiset")).result =
        .ok dfEx :=
  ⟨rfl, rfl⟩

/-- C9: every successful call to `push_to_hub` returns its input
dataframe unchanged. -/
theorem push_to_hub_returns_input (remote : PushRequest → Except String Unit)
    (df : DataFrame) (priv : Bool) (org repo : Option String) (df' : DataFrame)
    (h : (push_to_hub remote df priv org repo).result = .ok df') : df' = df := by
  unfold push_to_hub at h
  cases hc : check_push_to_hub org repo with
  | error e => rw [hc] at h; simp at h
  | ok rid =>
    rw [hc] at h
    cases hr : remote ⟨rid, priv, df, true⟩ with
    | error e => simp [hr] at h
    | ok u =>
      simp [hr] at h
      exact h.symm

/-- Witness for C9: a concrete successful push returns the input frame. -/
theorem push_to_hub_returns_input_witness :
    (push_to_hub remoteOk dfEx true (some "org") (some "repo")).result =
        .ok dfEx ∧ dfEx = dfEx :=
  ⟨rfl, push_to_hub_returns_input remoteOk dfEx true (some "org") (some "repo")
    dfEx rfl⟩

/-- Helper: with pairwise-distinct keys, the index of the `i`-th key in
the key list is `i`. -/
theorem map_indexOf_getElem {β : Type} [DecidableEq β] (f : Preset → β)
    (ps : List Preset) (hnd : (ps.map f).Nodup) (i : ℕ) (hi : i < ps.length) :
    (ps.map f).indexOf (f ps[i]) = i := by
  have hi' : i < (ps.map f).length := by simpa using hi
  have h1 : (ps.map f).get ⟨i, hi'⟩ = f ps[i] := by simp
  rw [← h1]
  exact List.get_indexOf hnd ⟨i, hi'⟩

/-- C5: for every description belonging to one of the presets,
`generate_system_prompt` returns exactly that preset's system prompt and
does not invoke the model. -/
theorem generate_system_prompt_preset (ps : List Preset)
    (model : String → String) (hnd : (ps.map Preset.description).Nodup)
    (p : Preset) (hp : p ∈ ps) :
    generate_system_prompt ps model p.description = (p.system_prompt, false) := by
  obtain ⟨i, hi, hpi⟩ := List.getElem_of_mem hp
  subst hpi
  have hmem : ps[i].description ∈ DEFAULT_DATASET_DESCRIPTIONS ps :=
    List.mem_map_of_mem Preset.description (List.getElem_mem hi)
  have hidx : (DEFAULT_DATASET_DESCRIPTIONS ps).indexOf ps[i].description = i :=
    map_indexOf_getElem Preset.description ps hnd i hi
  have hlen : i < (DEFAULT_SYSTEM_PROMPTS ps).length := by
    simpa [DEFAULT_SYSTEM_PROMPTS] using hi
  unfold generate_system_prompt
  rw [if_pos hmem]
  simp only [hidx]
  rw [dif_pos hlen]
  simp [DEFAULT_SYSTEM_PROMPTS]

/-- Witness for C5: the second concrete preset's description yields its
paired prompt with no model call. -/
theorem generate_system_prompt_preset_witness :
    (presetsEx.map Preset.description).Nodup ∧
      (⟨"A color naming assistant", "You name colors.", dfEx2⟩ : Preset) ∈ presetsEx ∧
      generate_system_prompt presetsEx modelEx "A color naming assistant" =
        ("You name colors.", false) :=
  ⟨by decide, by decide,
    generate_system_prompt_preset presetsEx modelEx (by decide)
      ⟨"A color naming assistant", "You name colors.", dfEx2⟩ (by decide)⟩

/-- C6: for every system prompt belonging to one of the presets,
`generate_sample_dataset` returns exactly that preset's sample dataset
and does not invoke the generation-job runner. -/
theorem generate_sample_dataset_preset (ps : List Preset)
    (runner : GenerationRequest → DataFrame)
    (hnd : (ps.map Preset.system_prompt).Nodup) (p : Preset) (hp : p ∈ ps) :
    generate_sample_dataset ps runner p.system_prompt = (p.sample, false) := by
  obtain ⟨i, hi, hpi⟩ := List.getElem_of_mem hp
  subst hpi
  have hmem : ps[i].system_prompt ∈ DEFAULT_SYSTEM_PROMPTS ps :=
    List.mem_map_of_mem Preset.system_prompt (List.getElem_mem hi)
  have hidx : (DEFAULT_SYSTEM_PROMPTS ps).indexOf ps[i].system_prompt = i :=
    map_indexOf_getElem Preset.system_prompt ps hnd i hi
  have hlen : i < (DEFAULT_DATASETS ps).length := by
    simpa [DEFAULT_DATASETS] using hi
  unfold generate_sample_dataset
  rw [if_pos hmem]
  simp only [hidx]
  rw [dif_pos hlen]
  simp [DEFAULT_DATASETS]

/-- Witness for C6: the second concrete preset's system prompt yields its
paired sample with no runner call. -/
theorem generate_sample_dataset_preset_witness :
    (presetsEx.map Preset.system_prompt).Nodup ∧
      (⟨"A color naming assistant", "You name colors.", dfEx2⟩ : Preset) ∈ presetsEx ∧
      generate_sample_dataset presetsEx runnerEx "You name colors." =
        (dfEx2, false) :=
  ⟨by decide, by decide,
    generate_sample_dataset_preset presetsEx runnerEx (by decide)
      ⟨"A color naming assistant", "You name colors.", dfEx2⟩ (by decide)⟩

/-- C8: for every system prompt outside the preset set,
`generate_sample_dataset` delegates to the generation-job runner with
exactly `num_turns = 1`, `num_rows = 1`, `is_sample = true`, and returns
that runner's result. -/
theorem generate_sample_dataset_delegates (ps : List Preset)
    (runner : GenerationRequest → DataFrame) (sp : String)
    (h : sp ∉ DEFAULT_SYSTEM_PROMPTS ps) :
    generate_sample_dataset ps runner sp = (runner ⟨sp, 1, 1, true⟩, true) := by
  unfold generate_sample_dataset
  rw [if_neg h]

/-- Witness for C8 at a concrete non-preset prompt. -/
theorem generate_sample_dataset_delegates_witness :
    "custom prompt" ∉ DEFAULT_SYSTEM_PROMPTS presetsEx ∧
      generate_sample_dataset presetsEx runnerEx "custom prompt" =
        (runnerEx ⟨"custom prompt", 1, 1, true⟩, true) :=
  ⟨by decide,
    generate_sample_dataset_delegates presetsEx runnerEx "custom prompt" (by decide)⟩

/-- Helper: shifting the base step of the emitted fractions. -/
theorem emitFrac_comp_succ (step : ℕ) :
    (fun i => emitFrac (step + i)) ∘ Nat.succ = fun i => emitFrac (step + 1 + i) := by
  funext i
  simp only [Function.comp_apply]
  congr 1
  omega

/-- Helper: each emitted fraction is positive. -/
theorem emitFrac_pos (j : ℕ) : 0 < emitFrac j := by
  unfold emitFrac totalSteps
  push_cast
  positivity

/-- Helper: fractions of the first 100 steps do not exceed 1. -/
theorem emitFrac_le_one {j : ℕ} (h : j < 100) : emitFrac j ≤ 1 := by
  unfold emitFrac totalSteps
  push_cast
  rw [div_le_one (by norm_num)]
  have hj : (j : ℚ) ≤ 99 := by exact_mod_cast Nat.lt_succ_iff.1 (by omega)
  linarith

/-- Helper: the fraction 1 is emitted only at step 99. -/
theorem emitFrac_eq_one {j : ℕ} (h : emitFrac j = 1) : j = 99 := by
  unfold emitFrac totalSteps at h
  push_cast at h
  rw [div_eq_iff (by norm_num)] at h
  have hj : (j : ℚ) = 99 := by linarith
  exact_mod_cast hj

/-- Helper: the emitted fraction is strictly increasing in the step. -/
theorem emitFrac_strictMono {a b : ℕ} (h : a < b) : emitFrac a < emitFrac b := by
  unfold emitFrac totalSteps
  push_cast
  rw [div_lt_div_iff_of_pos_right (by norm_num)]
  have : (a : ℚ) < b := by exact_mod_cast h
  linarith

/-- Helper: full characterization of the loop when the worker stays
alive and nothing raises: all 100 fractions are emitted, the worker is
joined, no error is raised. -/
theorem pollLoop_envAliveAll (fuel step : ℕ) :
    pollLoop envAliveAll step fuel =
      ⟨(List.range fuel).map (fun i => emitFrac (step + i)), true, none⟩ := by
  induction fuel generalizing step with
  | zero => rfl
  | succ n ih =>
    show (⟨emitFrac step :: (pollLoop envAliveAll (step + 1) n).emitted,
        (pollLoop envAliveAll (step + 1) n).joined,
        (pollLoop envAliveAll (step + 1) n).error⟩ : RunState) = _
    rw [ih, List.range_succ_eq_map, List.map_cons, List.map_map, emitFrac_comp_succ]
    simp

/-- Helper: what one run of the `try` block can look like — the emitted
fractions are an initial segment of the 100 scheduled ones, a run without
error has executed `p.join()`, and a run with an error carries a wrapped
message and has not executed `p.join()`. -/
theorem pollLoop_spec (env : LoopEnv) : ∀ fuel step : ℕ,
    ∃ k, k ≤ fuel ∧
      (pollLoop env step fuel).emitted =
        (List.range k).map (fun i => emitFrac (step + i)) ∧
      ((pollLoop env step fuel).error = none →
        (pollLoop env step fuel).joined = true) ∧
      (∀ msg, (pollLoop env step fuel).error = some msg →
        (pollLoop env step fuel).joined = false ∧ ∃ orig, msg = errWrap orig) := by
  intro fuel
  induction fuel with
  | zero =>
    intro step
    exact ⟨0, Nat.le_refl 0, by simp [pollLoop], fun _ => rfl,
      fun msg hmsg => Option.noConfusion hmsg⟩
  | succ n ih =>
    intro step
    by_cases hex : env.exitObserved step = true
    · refine ⟨0, Nat.zero_le _, ?_, ?_, ?_⟩ <;> simp [pollLoop, hex]
    · cases hr : env.raisesAt step with
      | some msg =>
        have hunf : pollLoop env step (n + 1) = ⟨[], false, some (errWrap msg)⟩ := by
          simp [pollLoop, hex, hr]
        refine ⟨0, Nat.zero_le _, by simp [hunf], ?_, ?_⟩
        · rw [hunf]
          intro hcon
          exact Option.noConfusion hcon
        · rw [hunf]
          intro m hm
          exact ⟨rfl, msg, (Option.some.inj hm).symm⟩
      | none =>
        obtain ⟨k, hk, hemit, hjoin, herr⟩ := ih (step + 1)
        have hunf : pollLoop env step (n + 1) =
            ⟨emitFrac step :: (pollLoop env (step + 1) n).emitted,
              (pollLoop env (step + 1) n).joined,
              (pollLoop env (step + 1) n).error⟩ := by
          simp [pollLoop, hex, hr]
        refine ⟨k + 1, by omega, ?_, ?_, ?_⟩
        · rw [hunf]
          show emitFrac step :: _ = _
          rw [hemit, List.range_succ_eq_map, List.map_cons, List.map_map,
            emitFrac_comp_succ]
          simp
        · rw [hunf]
          exact hjoin
        · rw [hunf]
          exact herr

/-- Helper: in the always-alive run the loop emission list is exactly the
100 scheduled fractions. -/
theorem envAliveAll_emitted :
    (generateDatasetRun envAliveAll).emitted =
      (List.range 100).map (fun i => emitFrac i) := by
  rw [generateDatasetRun, pollLoop_envAliveAll]
  simp [totalSteps]

/-- Helper: the always-alive run emits the fraction 1 inside the loop. -/
theorem one_mem_envAliveAll :
    (1 : ℚ) ∈ (generateDatasetRun envAliveAll).emitted := by
  rw [envAliveAll_emitted]
  refine List.mem_map.2 ⟨99, List.mem_range.2 (by omega), ?_⟩
  unfold emitFrac totalSteps
  push_cast
  norm_num

/-- Helper: the always-alive run raises no error. -/
theorem envAliveAll_error_none :
    (generateDatasetRun envAliveAll).error = none := by
  rw [generateDatasetRun, pollLoop_envAliveAll]

/-- C2 counterexample: in the run whose worker stays alive through all
100 polls (and nothing raises), the fraction 1.0 is emitted inside the
polling loop — i.e. while the worker is alive — so not every fraction
emitted while the worker is alive is strictly below 1.0, and 1.0 is not
carried only by the final completion event. -/
theorem generate_dataset_progress_counterexample :
    (1 : ℚ) ∈ (generateDatasetRun envAliveAll).emitted ∧
      ¬(∀ x ∈ (generateDatasetRun envAliveAll).emitted, x < 1) :=
  ⟨one_mem_envAliveAll,
    fun hall => absurd (hall 1 one_mem_envAliveAll) (by norm_num)⟩

/-- C2 (amended): in every run of `generate_dataset`, the fractions
emitted while the worker is alive are strictly monotonically increasing,
lie in the half-open-at-zero range `(0, 1]`, and a fraction equal to 1.0
occurs only when the worker survives all 100 polls (it is then the 100th
and last loop emission); when no exception is raised, the final
completion event carries the value 1.0. -/
theorem generate_dataset_progress_amended (env : LoopEnv) :
    (generateDatasetRun env).emitted.Pairwise (· < ·) ∧
      (generateDatasetRun env).emitted.length ≤ 100 ∧
      (∀ x ∈ (generateDatasetRun env).emitted, 0 < x ∧ x ≤ 1) ∧
      ((1 : ℚ) ∈ (generateDatasetRun env).emitted →
        (generateDatasetRun env).emitted.length = 100) ∧
      ((generateDatasetRun env).error = none →
        (progressEvents env).getLast? = some 1) := by
  obtain ⟨k, hk, hemit, hjoin, herr⟩ := pollLoop_spec env totalSteps 0
  have hk100 : k ≤ 100 := by simpa [totalSteps] using hk
  have hemit' : (generateDatasetRun env).emitted =
      (List.range k).map (fun i => emitFrac i) := by
    rw [generateDatasetRun, hemit]
    simp
  refine ⟨?_, ?_, ?_, ?_, ?_⟩
  · rw [hemit', List.pairwise_map]
    exact (List.pairwise_lt_range k).imp fun h => emitFrac_strictMono h
  · rw [hemit']
    simp only [List.length_map, List.length_range]
    exact hk100
  · rw [hemit']
    intro x hx
    obtain ⟨i, hi, rfl⟩ := List.mem_map.1 hx
    have hik : i < k := List.mem_range.1 hi
    exact ⟨emitFrac_pos i, emitFrac_le_one (by omega)⟩
  · rw [hemit']
    intro h1
    obtain ⟨i, hi, hfe⟩ := List.mem_map.1 h1
    have hik : i < k := List.mem_range.1 hi
    have h99 : i = 99 := emitFrac_eq_one hfe
    have hken : k = 100 := by omega
    simp [hken]
  · intro he
    unfold progressEvents
    rw [he]
    exact List.getLast?_concat _

/-- Witness for the amended C2 in the always-alive run: 1.0 is emitted,
so (by the theorem) the loop ran its full 100 emissions, and since no
error was raised the final event is 1.0. -/
theorem generate_dataset_progress_amended_witness :
    (1 : ℚ) ∈ (generateDatasetRun envAliveAll).emitted ∧
      (generateDatasetRun envAliveAll).emitted.length = 100 ∧
      (generateDatasetRun envAliveAll).error = none ∧
      (progressEvents envAliveAll).getLast? = some 1 :=
  ⟨one_mem_envAliveAll,
    (generate_dataset_progress_amended envAliveAll).2.2.2.1 one_mem_envAliveAll,
    envAliveAll_error_none,
    (generate_dataset_progress_amended envAliveAll).2.2.2.2 envAliveAll_error_none⟩

/-- C3 counterexample: when the loop body raises at the first poll
(e.g., the `progress` callback fails), `generate_dataset` re-raises the
wrapped `gr.Error`, but `p.join()` — which sits inside the `try` block —
is never executed, so the worker is left running. -/
theorem generate_dataset_error_leaves_worker :
    (generateDatasetRun envRaise0).error = some (errWrap "boom") ∧
      (generateDatasetRun envRaise0).joined = false :=
  ⟨rfl, rfl⟩

/-- C3 (amended): in every run of `generate_dataset`, an exception
escaping the polling loop is re-raised wrapped as a user-facing
`gr.Error`, but on that path the worker is not joined; only on runs
without an exception is the worker joined (before the result is
consumed). -/
theorem generate_dataset_error_handling (env : LoopEnv) :
    (∀ msg, (generateDatasetRun env).error = some msg →
        (∃ orig, msg = errWrap orig) ∧ (generateDatasetRun env).joined = false) ∧
      ((generateDatasetRun env).error = none →
        (generateDatasetRun env).joined = true) := by
  obtain ⟨k, hk, hemit, hjoin, herr⟩ := pollLoop_spec env totalSteps 0
  exact ⟨fun msg hm => ⟨(herr msg hm).2, (herr msg hm).1⟩, hjoin⟩

/-- Witness for the amended C3 at the run raising `"boom"`. -/
theorem generate_dataset_error_handling_witness :
    (generateDatasetRun envRaise0).error = some (errWrap "boom") ∧
      ((∃ orig, errWrap "boom" = errWrap orig) ∧
        (generateDatasetRun envRaise0).joined = false) :=
  ⟨rfl, (generate_dataset_error_handling envRaise0).1 (errWrap "boom") rfl⟩
